import Mathlib

/-!
Verification of the Advisory Generation Pipeline of the flight-delay
dashboard.  The two source files embedded here are
`pages/api/ai-advice.js` (the server-side cascade resolver, `handler`)
and `components/AIAdvisor.jsx` (the client-side orchestrator,
`generate`, and the mount-time capability probe `checkAI`).

Modelling conventions:
* JavaScript strings are Lean `String`s; an absent environment variable
  is modelled as the empty string, matching JS falsiness of `""` and
  `undefined` in `process.env.X || default`.
* `x || d` on an optional string is `jsOr`.
* The network and the local inference facility are nondeterministic
  collaborators; they are modelled as explicit oracles.  The provider
  oracle of the resolver maps the index of the issued call (and the
  request prompt, which is forwarded verbatim in each request body) to
  the outcome of that call; the candidate URL and the API key only
  select the endpoint and do not influence the control flow embedded
  here.
* Thrown JS exceptions are modelled as explicit outcome constructors;
  the control flow of `try`/`catch` is compiled into the corresponding
  branches.
-/

namespace AdvisoryPipeline

/-- JS `o || d` for an optional string `o`: `undefined` and the empty
string are falsy and give the default `d`. -/
def jsOr (o : Option String) (d : String) : String :=
  match o with
  | some s => if s = "" then d else s
  | none => d

/-! ### Server side: `pages/api/ai-advice.js` -/

/-- Outcome of one `fetch` to the remote provider for one candidate
(lines 60-71 of `ai-advice.js`), abstracting the network:
`ok extract` is an HTTP success whose body parses and yields
`data?.candidates?.[0]?.content?.parts?.[0]?.text` (`none` when the
nested path is absent); `httpErr status body` is `!r.ok` with the error
body text; `throwErr` is a thrown transport/parse error. -/
inductive FetchOutcome where
  | ok (extract : Option String)
  | httpErr (status : Nat) (body : String)
  | throwErr (msg : String)
deriving DecidableEq

/-- Result of the candidate loop of `handler` (lines 55-87): a success
exit (line 76), exhaustion of all candidates with the last recorded
error text (reaching line 88), or a thrown error escaping the loop
(line 83 or a transport throw), each carrying the number of provider
calls issued. -/
inductive LoopResult where
  | success (text provider : String) (calls : Nat)
  | exhausted (lastErr : String) (calls : Nat)
  | thrown (msg : String) (calls : Nat)
deriving DecidableEq

/-- The recorded error text for a failed candidate, line 80: the
parenthesized version/model pair followed by the error body text. -/
def errRecord (ver model body : String) : String :=
  "(" ++ ver ++ "/" ++ model ++ ") " ++ body

/-- The candidate loop of `handler` (lines 55-87): for each
`(version, model)` candidate in order, issue one provider call; on HTTP
success return immediately with the extracted text (empty when absent,
line 74) and provider tag `gemini:<ver>:<model>`; on `!r.ok` record the
error text and continue, except that a status `>= 500` throws (line 82);
a transport throw propagates.  `calls` counts issued provider calls and
`lastErr` threads `lastErrText`. -/
def tryCandidates (oracle : Nat → String → FetchOutcome) (prompt : String) :
    List (String × String) → Nat → String → LoopResult
  | [], calls, lastErr => .exhausted lastErr calls
  | (ver, model) :: rest, calls, _lastErr =>
    match oracle calls prompt with
    | .ok extract =>
        .success (jsOr extract "") ("gemini:" ++ ver ++ ":" ++ model) (calls + 1)
    | .httpErr status body =>
        if 500 ≤ status then
          .thrown ("Gemini API server error " ++ toString status ++ ": " ++ body) (calls + 1)
        else
          tryCandidates oracle prompt rest (calls + 1) (errRecord ver model body)
    | .throwErr msg => .thrown msg (calls + 1)

/-- The fixed system instruction of the server-side advice prompt
(line 23 of `ai-advice.js`). -/
def adviceSystemText : String :=
  "You are a concise travel assistant integrated in a flight delay dashboard. Given the flight context, weather and predicted delays, generate a short actionable advisory for the traveler. Prefer bullet points. Avoid hedging. Never invent data. Keep to ~120-180 words. Include “What to do next” with 2-3 steps.\n\nJSON Context:\n"

/-- The server-side prompt builder (lines 17-24 of `ai-advice.js`).
`contextStr` is the serialized context `JSON.stringify(context, null, 2)`
(serialization of the opaque context snapshot happens before this
point and is itself pure). -/
def buildPromptServer (mode language advice contextStr : String) : String :=
  if mode = "translate" then
    "Translate the following advisory to " ++ language ++
      " using clear, friendly travel English localized to the target language.\n\n" ++ advice
  else if mode = "rewrite" then
    "Rewrite the following advisory to be more concise while preserving all key recommendations. Limit to 120 words.\n\n" ++ advice
  else
    adviceSystemText ++ contextStr

/-- The no-credential demo stub (lines 28-36). -/
def stubText : String :=
  String.intercalate "\n"
    ["DEMO ADVISORY (no GEMINI_API_KEY set):",
     "- Allow extra time at the airport; weather may introduce minor gate/ground delays.",
     "- Pack essentials in carry-on and consider earlier check-in.",
     "What to do next:",
     "1) Monitor your airline app for gate changes.",
     "2) If connecting, choose longer layover options if possible.",
     "3) Have a backup ground transport plan at destination."]

/-- The all-candidates-exhausted stub (lines 89-97). -/
def stubFallbackText : String :=
  String.intercalate "\n"
    ["DEMO ADVISORY (Gemini endpoints unavailable):",
     "- Expect minor operational variability; build buffer into your plans.",
     "- Keep essentials handy and watch for gate updates.",
     "What to do next:",
     "1) Enable Generative Language API and verify your API key permissions.",
     "2) Try model=`GEMINI_MODEL=gemini-1.5-flash` with API version v1beta.",
     "3) Re-run — the app will use on-device AI when available."]

/-- The final safety-net stub of the catch block (lines 102-108). -/
def stubErrorText : String :=
  String.intercalate "\n"
    ["DEMO ADVISORY (fallback on error):",
     "- Some disruptions possible; arrive early and monitor your airline app.",
     "What to do next:",
     "1) Consider flexible rebooking options.",
     "2) Prepare backup ground transport at destination."]

/-- `const preferred = process.env.GEMINI_MODEL || 'gemini-1.5-flash'`
(line 43); the unset environment variable is the empty string. -/
def preferredModel (geminiModel : String) : String :=
  if geminiModel = "" then "gemini-1.5-flash" else geminiModel

/-- The raw model list before deduplication (lines 44-53). -/
def rawModels (preferred : String) : List String :=
  [preferred,
   preferred ++ "-latest",
   preferred ++ "-002",
   "gemini-1.5-flash-8b",
   "gemini-1.5-flash-8b-latest",
   "gemini-1.5-flash",
   "gemini-1.5-flash-latest",
   "gemini-1.5-pro"]

/-- One step of JS `Set` insertion-order deduplication: keep the first
occurrence of each element. -/
def dedupStep (acc : List String) (m : String) : List String :=
  if m ∈ acc then acc else acc ++ [m]

/-- `Array.from(new Set(list))`: insertion-order deduplication keeping
first occurrences. -/
def jsSetDedup (l : List String) : List String :=
  l.foldl dedupStep []

/-- The deduplicated model list (line 44). -/
def models (geminiModel : String) : List String :=
  jsSetDedup (rawModels (preferredModel geminiModel))

/-- `const versions = ['v1beta', 'v1']` (line 41), most-capable first. -/
def versions : List String := ["v1beta", "v1"]

/-- The ordered candidate list traversed by the nested loops of
lines 56-57: versions outer, models inner. -/
def candidates (geminiModel : String) : List (String × String) :=
  versions.flatMap (fun ver => (models geminiModel).map (fun model => (ver, model)))

/-- The JSON body of a response of `handler`; absent fields are `none`. -/
structure ApiResponse where
  status : Nat
  text : Option String := none
  provider : Option String := none
  errorInfo : Option String := none
  error : Option String := none
deriving DecidableEq

/-- A run of `handler`: the HTTP response it produces and the number of
provider calls it issued. -/
structure HandlerTrace where
  response : ApiResponse
  calls : Nat
deriving DecidableEq

/-- The request handler of `pages/api/ai-advice.js` (lines 5-111).
`method` is `req.method`; `apiKey` and `geminiModel` are the
`GEMINI_API_KEY` and `GEMINI_MODEL` environment variables (empty string
when unset); `mode`, `language`, `advice` and `contextStr` are the
already-defaulted request-body fields (`contextStr` the serialized
context).  Non-POST requests get 405 (lines 6-8); a missing key gets the
demo stub with zero calls (lines 27-38); otherwise the candidate loop
runs and its three outcomes map to the success response (line 76), the
`stub-fallback` response carrying the last recorded error (line 98), and
the catch block's `stub-error` response (lines 99-110). -/
def handler (method apiKey geminiModel mode language advice contextStr : String)
    (oracle : Nat → String → FetchOutcome) : HandlerTrace :=
  if method ≠ "POST" then
    ⟨{ status := 405, error := some "Method not allowed" }, 0⟩
  else if apiKey = "" then
    ⟨{ status := 200, text := some stubText, provider := some "stub" }, 0⟩
  else
    match tryCandidates oracle (buildPromptServer mode language advice contextStr)
        (candidates geminiModel) 0 "" with
    | .success t p c =>
        ⟨{ status := 200, text := some t, provider := some p }, c⟩
    | .exhausted lastErr c =>
        ⟨{ status := 200
           text := some stubFallbackText
           provider := some "stub-fallback"
           errorInfo := some lastErr }, c⟩
    | .thrown _ c =>
        ⟨{ status := 200, text := some stubErrorText, provider := some "stub-error" }, c⟩

/-! ### Client side: `components/AIAdvisor.jsx` -/

/-- Behaviour of `window.ai.canCreateTextSession()` on one invocation:
it resolves with a status string or rejects. -/
inductive LocalProbe where
  | answer (status : String)
  | probeThrow
deriving DecidableEq

/-- Behaviour of `session.prompt(...)`: it yields an output
(`none` = `undefined`) or throws. -/
inductive PromptResult where
  | yields (output : Option String)
  | promptThrows
deriving DecidableEq

/-- Behaviour of `window.ai.createTextSession(...)`: it opens a session
with the given `prompt` behaviour, or throws. -/
inductive SessionOpen where
  | opens (result : PromptResult)
  | openThrows
deriving DecidableEq

/-- Behaviour of the boundary `fetch('/api/ai-advice')` (lines 94-99 of
`AIAdvisor.jsx`): a response with `r.ok` and the parsed JSON fields
`text`, `provider`, `error` (each possibly absent), or a thrown
transport/parse error. -/
inductive RemoteResult where
  | responds (ok : Bool) (jsonText jsonProvider jsonError : Option String)
  | fetchThrows
deriving DecidableEq

/-- The React state of `AIAdvisor` relevant to the pipeline: `advice`,
`provider`, `aiStatus` (`none` = initial `null`) and `loading`. -/
structure AdvisorState where
  advice : String
  provider : String
  aiStatus : Option String
  loading : Bool
deriving DecidableEq

/-- A run of one `generate` action: the final component state, the
number of `canCreateTextSession` readiness queries issued by the action,
and the number of boundary calls to `/api/ai-advice` issued. -/
structure GenTrace where
  state : AdvisorState
  probeCalls : Nat
  remoteCalls : Nat
deriving DecidableEq

/-- The fixed final-fallback advisory of the catch block (line 107). -/
def clientErrorText : String :=
  "Unable to generate advisory (both Built-in AI and fallback failed)."

/-- The provider tag of the on-device success exit (line 86). -/
def onDeviceTag : String := "on-device (Gemini Nano)"

/-- The client-side prompt builder (lines 75-82 of `AIAdvisor.jsx`);
`contextStr` is the serialized `buildContext()` output
`JSON.stringify(ctx, null, 2)`. -/
def buildPromptClient (mode language advice contextStr : String) : String :=
  if mode = "translate" then
    "Translate the following advisory to " ++ language ++
      " using clear, friendly travel English localized to the target language:\n\n" ++ advice
  else if mode = "rewrite" then
    "Rewrite the following advisory to be more concise while preserving all key recommendations. Limit to 120 words.\n\n" ++ advice
  else
    "Create a traveler advisory for this flight context. Output plain text.\n\nJSON Context:\n" ++ contextStr

/-- The state reached through the outer catch block (lines 105-108),
with `loading` cleared by the `finally` (line 110). -/
def errorSettle (st : AdvisorState) : AdvisorState :=
  { st with advice := clientErrorText, provider := "error", loading := false }

/-- The server-fallback phase of `generate` (lines 91-104): one boundary
call; a thrown fetch or a `!r.ok` response (which throws at line 101)
reaches the outer catch; an `ok` response stores `String(j.text || '')`
and `j.provider || 'server'`.  `probeCalls` is the number of readiness
queries already issued by this action. -/
def remotePhase (remote : RemoteResult) (st : AdvisorState) (probeCalls : Nat) : GenTrace :=
  match remote with
  | .fetchThrows => ⟨errorSettle st, probeCalls, 1⟩
  | .responds ok jsonText jsonProvider _ =>
    if ok then
      ⟨{ st with
          advice := jsOr jsonText ""
          provider := jsOr jsonProvider "server"
          loading := false }, probeCalls, 1⟩
    else
      ⟨errorSettle st, probeCalls, 1⟩

/-- One `generate(mode)` action (lines 62-112 of `AIAdvisor.jsx`).
When the Prompt API is supported the action first re-queries
`window.ai?.canCreateTextSession?.()` (line 66); a rejection propagates
to the outer catch.  On `readily`/`after-download` the on-device path
runs: a throw from `createTextSession` or from `session.prompt`
propagates to the outer catch (there is no inner handler), and a
yielded output settles the action on-device with
`String(output || '')`.  All other shapes fall through to the server
phase.  The built prompt (see `buildPromptClient`) is submitted to the
session, whose behaviour is abstracted by `sess`; `setLoading(true)` at
entry is superseded by the unconditional `finally` clearing it, so only
the final `loading := false` is visible in the trace. -/
def generate (supports : Bool) (probe : LocalProbe) (sess : SessionOpen)
    (remote : RemoteResult) (st : AdvisorState) : GenTrace :=
  if supports then
    match probe with
    | .probeThrow => ⟨errorSettle st, 1, 0⟩
    | .answer can =>
      if can = "readily" ∨ can = "after-download" then
        match sess with
        | .openThrows => ⟨errorSettle st, 1, 0⟩
        | .opens .promptThrows => ⟨errorSettle st, 1, 0⟩
        | .opens (.yields output) =>
            ⟨{ st with
                advice := jsOr output ""
                provider := onDeviceTag
                loading := false }, 1, 0⟩
      else
        remotePhase remote st 1
  else
    remotePhase remote st 0

/-- The mount-time capability probe `checkAI` (lines 26-41 of
`AIAdvisor.jsx`), run once by the empty-dependency effect.  Returns the
value assigned to `aiStatus` (`none` = left at its initial `null`) and
the number of `canCreateTextSession` calls it issued. -/
def checkAITrace (windowDefined hasWindowAI : Bool) (probe : LocalProbe) :
    Option String × Nat :=
  if ¬windowDefined then (none, 0)
  else if ¬hasWindowAI then (some "unavailable", 0)
  else
    match probe with
    | .answer s => (some s, 1)
    | .probeThrow => (some "error", 1)

/-! ### Helper lemmas -/

/-- A step of insertion-order deduplication preserves `Nodup`. -/
lemma dedupStep_nodup {acc : List String} (m : String) (h : acc.Nodup) :
    (dedupStep acc m).Nodup := by
  unfold dedupStep
  by_cases hm : m ∈ acc
  · simpa [hm]
  · simp only [hm, if_false]
    exact List.Nodup.append h (List.nodup_singleton m)
      (by simpa [List.disjoint_singleton] using hm)

/-- Folding `dedupStep` preserves `Nodup` of the accumulator. -/
lemma foldl_dedupStep_nodup :
    ∀ (l acc : List String), acc.Nodup → (l.foldl dedupStep acc).Nodup := by
  intro l
  induction l with
  | nil => intro acc h; simpa using h
  | cons m l ih => intro acc h; exact ih _ (dedupStep_nodup m h)

/-- The result of insertion-order deduplication has no duplicates. -/
lemma jsSetDedup_nodup (l : List String) : (jsSetDedup l).Nodup :=
  foldl_dedupStep_nodup l [] List.nodup_nil

/-- Folding `dedupStep` only ever appends to the accumulator. -/
lemma foldl_dedupStep_extends :
    ∀ (l acc : List String), ∃ t, l.foldl dedupStep acc = acc ++ t := by
  intro l
  induction l with
  | nil => intro acc; exact ⟨[], by simp⟩
  | cons m l ih =>
    intro acc
    by_cases hm : m ∈ acc
    · have hstep : dedupStep acc m = acc := by simp [dedupStep, hm]
      simpa [List.foldl_cons, hstep] using ih acc
    · obtain ⟨t, ht⟩ := ih (acc ++ [m])
      have hstep : dedupStep acc m = acc ++ [m] := by simp [dedupStep, hm]
      exact ⟨[m] ++ t, by rw [List.foldl_cons, hstep, ht, List.append_assoc]⟩

/-- Deduplication keeps the head of a list in head position. -/
lemma jsSetDedup_cons (p : String) (l : List String) :
    ∃ t, jsSetDedup (p :: l) = p :: t := by
  obtain ⟨t, ht⟩ := foldl_dedupStep_extends l [p]
  exact ⟨t, by simpa [jsSetDedup, List.foldl_cons, dedupStep] using ht⟩

/-- The deduplicated model list starts with the preferred model. -/
lemma models_cons (gm : String) :
    ∃ t, models gm = preferredModel gm :: t := by
  simpa [models, rawModels] using
    jsSetDedup_cons (preferredModel gm)
      [preferredModel gm ++ "-latest", preferredModel gm ++ "-002",
       "gemini-1.5-flash-8b", "gemini-1.5-flash-8b-latest",
       "gemini-1.5-flash", "gemini-1.5-flash-latest", "gemini-1.5-pro"]

/-- The candidate list is the v1beta block followed by the v1 block. -/
lemma candidates_eq (gm : String) :
    candidates gm = (models gm).map (fun m => ("v1beta", m)) ++
      (models gm).map (fun m => ("v1", m)) := by
  simp [candidates, versions]

/-- The candidate list starts with `("v1beta", preferred)`. -/
lemma candidates_cons (gm : String) :
    ∃ rest, candidates gm = ("v1beta", preferredModel gm) :: rest := by
  obtain ⟨t, ht⟩ := models_cons gm
  exact ⟨t.map (fun m => ("v1beta", m)) ++ (models gm).map (fun m => ("v1", m)),
    by rw [candidates_eq, ht]; simp⟩

/-- Every success exit of the candidate loop comes from an HTTP-success
oracle answer on some candidate of the list, carries that candidate's
tag, and surfaces exactly the extracted text. -/
lemma tryCandidates_success_src (oracle : Nat → String → FetchOutcome) (prompt : String) :
    ∀ (cands : List (String × String)) (calls : Nat) (lastErr t p : String) (c : Nat),
      tryCandidates oracle prompt cands calls lastErr = LoopResult.success t p c →
      ∃ ver model ex, (ver, model) ∈ cands ∧ oracle (c - 1) prompt = FetchOutcome.ok ex ∧
        t = jsOr ex "" ∧ p = "gemini:" ++ ver ++ ":" ++ model := by
  intro cands
  induction cands with
  | nil => intro calls lastErr t p c h; simp [tryCandidates] at h
  | cons hd rest ih =>
    intro calls lastErr t p c h
    obtain ⟨ver, model⟩ := hd
    cases horacle : oracle calls prompt with
    | ok ex =>
      rw [tryCandidates, horacle] at h
      obtain ⟨ht, hp, hc⟩ := by simpa using h
      exact ⟨ver, model, ex, List.mem_cons_self _ _,
        by rw [← hc]; simpa using horacle, ht.symm, hp.symm⟩
    | httpErr status body =>
      rw [tryCandidates, horacle] at h
      by_cases h5 : 500 ≤ status
      · simp [h5] at h
      · simp only [if_neg h5] at h
        obtain ⟨ver', model', ex, hmem, ho, ht, hp⟩ := ih _ _ _ _ _ h
        exact ⟨ver', model', ex, List.mem_cons_of_mem _ hmem, ho, ht, hp⟩
    | throwErr msg =>
      rw [tryCandidates, horacle] at h
      simp at h

/-- A provider tag of the success exit starts with the character `g`. -/
lemma gemini_tag_head (a b : String) :
    ("gemini:" ++ a ++ ":" ++ b).data.head? = some 'g' := by
  rw [String.data_append, String.data_append, String.data_append]
  have h : ("gemini:" : String).data = 'g' :: ['e', 'm', 'i', 'n', 'i', ':'] := by decide
  rw [h]
  rfl

/-- A provider tag of the success exit is distinct from any string that
starts with the character `s`, in particular from the stub tags. -/
lemma gemini_tag_ne (a b s : String) (hs : s.data.head? = some 's') :
    "gemini:" ++ a ++ ":" ++ b ≠ s := by
  intro h
  have hg := gemini_tag_head a b
  rw [h, hs] at hg
  exact absurd hg (by decide)

/-- A string that appends something to a prefix of positive length is
non-empty, the prefix being itself a triple append. -/
lemma append3_len_pos (x y z : String) (hx : 0 < x.length) :
    0 < (x ++ y ++ z).length := by
  rw [String.length_append, String.length_append]
  omega

/-- A string that appends something to a non-empty prefix is
non-empty. -/
lemma prefix_append_ne_empty (p s : String) (hp : 0 < p.length) : p ++ s ≠ "" := by
  intro h
  have hl := congrArg String.length h
  rw [String.length_append] at hl
  have h0 : ("" : String).length = 0 := by decide
  omega

/-- Step lemma: an HTTP success on the current candidate is an
immediate success exit of the candidate loop. -/
lemma tryCandidates_ok (oracle : Nat → String → FetchOutcome)
    (prompt ver model : String) (rest : List (String × String)) (calls : Nat)
    (lastErr : String) (ex : Option String)
    (ho : oracle calls prompt = FetchOutcome.ok ex) :
    tryCandidates oracle prompt ((ver, model) :: rest) calls lastErr =
      LoopResult.success (jsOr ex "") ("gemini:" ++ ver ++ ":" ++ model) (calls + 1) := by
  rw [tryCandidates, ho]

/-- Step lemma: a server-class failure on the current candidate throws
out of the candidate loop. -/
lemma tryCandidates_server_err (oracle : Nat → String → FetchOutcome)
    (prompt ver model : String) (rest : List (String × String)) (calls : Nat)
    (lastErr : String) (status : Nat) (body : String)
    (ho : oracle calls prompt = FetchOutcome.httpErr status body) (h5 : 500 ≤ status) :
    tryCandidates oracle prompt ((ver, model) :: rest) calls lastErr =
      LoopResult.thrown ("Gemini API server error " ++ toString status ++ ": " ++ body)
        (calls + 1) := by
  rw [tryCandidates, ho]
  simp only [if_pos h5]

/-- Step lemma: a client-class failure on the current candidate records
the error text and continues with the remaining candidates. -/
lemma tryCandidates_client_err (oracle : Nat → String → FetchOutcome)
    (prompt ver model : String) (rest : List (String × String)) (calls : Nat)
    (lastErr : String) (status : Nat) (body : String)
    (ho : oracle calls prompt = FetchOutcome.httpErr status body) (hlt : status < 500) :
    tryCandidates oracle prompt ((ver, model) :: rest) calls lastErr =
      tryCandidates oracle prompt rest (calls + 1) (errRecord ver model body) := by
  rw [tryCandidates, ho]
  simp only [if_neg (show ¬500 ≤ status by omega)]

/-- Glue lemma: a success exit of the loop becomes the 200 response
with the extracted text and the candidate's provider tag. -/
lemma handler_success (oracle : Nat → String → FetchOutcome)
    (apiKey gm mode language advice contextStr t p : String) (c : Nat)
    (hkey : apiKey ≠ "")
    (htc : tryCandidates oracle (buildPromptServer mode language advice contextStr)
      (candidates gm) 0 "" = LoopResult.success t p c) :
    handler "POST" apiKey gm mode language advice contextStr oracle =
      ⟨{ status := 200, text := some t, provider := some p }, c⟩ := by
  unfold handler
  rw [if_neg (by simp), if_neg hkey, htc]

/-- Glue lemma: an exhausted loop becomes the 200 `stub-fallback`
response carrying the last recorded error. -/
lemma handler_exhausted (oracle : Nat → String → FetchOutcome)
    (apiKey gm mode language advice contextStr lastErr : String) (c : Nat)
    (hkey : apiKey ≠ "")
    (htc : tryCandidates oracle (buildPromptServer mode language advice contextStr)
      (candidates gm) 0 "" = LoopResult.exhausted lastErr c) :
    handler "POST" apiKey gm mode language advice contextStr oracle =
      ⟨{ status := 200
         text := some stubFallbackText
         provider := some "stub-fallback"
         errorInfo := some lastErr }, c⟩ := by
  unfold handler
  rw [if_neg (by simp), if_neg hkey, htc]

/-- Glue lemma: a thrown loop is caught by the safety net and becomes
the 200 `stub-error` response. -/
lemma handler_thrown (oracle : Nat → String → FetchOutcome)
    (apiKey gm mode language advice contextStr msg : String) (n : Nat)
    (hkey : apiKey ≠ "")
    (htc : tryCandidates oracle (buildPromptServer mode language advice contextStr)
      (candidates gm) 0 "" = LoopResult.thrown msg n) :
    handler "POST" apiKey gm mode language advice contextStr oracle =
      ⟨{ status := 200, text := some stubErrorText, provider := some "stub-error" }, n⟩ := by
  unfold handler
  rw [if_neg (by simp), if_neg hkey, htc]

/-! ### Claims -/

/-- Claim C6: when no API credential is configured, `handler` skips the
candidate iteration entirely and returns immediately with status 200,
provider tag `stub` and the fixed non-empty demo stub text, issuing zero
provider calls, for every oracle and configuration. -/
theorem C6_no_credential_immediate_stub
    (gm mode language advice contextStr : String)
    (oracle : Nat → String → FetchOutcome) :
    handler "POST" "" gm mode language advice contextStr oracle =
      ⟨{ status := 200, text := some stubText, provider := some "stub" }, 0⟩ ∧
    stubText ≠ "" :=
  ⟨rfl, by decide⟩

/-- Claim C7: the constructed candidate list has no duplicate
`(version, model)` pair; its first candidate is on the most-capable
version with the preferred model; and the preferred model is the
configured `GEMINI_MODEL` when set, else the built-in default
`gemini-1.5-flash`. -/
theorem C7_candidates_nodup_and_preferred_first (gm : String) :
    (candidates gm).Nodup ∧
    (candidates gm).head? = some ("v1beta", preferredModel gm) ∧
    preferredModel gm = (if gm = "" then "gemini-1.5-flash" else gm) := by
  refine ⟨?_, ?_, rfl⟩
  · rw [candidates_eq]
    have hinj1 : Function.Injective (fun m : String => (("v1beta" : String), m)) := by
      intro a b h; simpa using h
    have hinj2 : Function.Injective (fun m : String => (("v1" : String), m)) := by
      intro a b h; simpa using h
    refine List.Nodup.append ((jsSetDedup_nodup _).map hinj1)
      ((jsSetDedup_nodup _).map hinj2) ?_
    intro a ha hb
    obtain ⟨m1, _, rfl⟩ := List.mem_map.mp ha
    obtain ⟨m2, _, hab⟩ := List.mem_map.mp hb
    have h2 : ("v1" : String) = "v1beta" := congrArg Prod.fst hab
    exact absurd h2 (by decide)
  · obtain ⟨rest, hrest⟩ := candidates_cons gm
    rw [hrest]
    rfl

/-- Claim C4: a candidate failure with a server-class status (at least
500) makes the cascade abort immediately with a thrown hard failure,
attempting no remaining candidate; in particular, with a 503 on the
first candidate the handler issues exactly one provider call and its
catch block converts the throw into the `stub-error` response. -/
theorem C4_server_class_aborts_cascade (oracle : Nat → String → FetchOutcome) :
    (∀ (prompt ver model : String) (rest : List (String × String)) (calls : Nat)
       (lastErr : String) (status : Nat) (body : String),
       oracle calls prompt = FetchOutcome.httpErr status body → 500 ≤ status →
       tryCandidates oracle prompt ((ver, model) :: rest) calls lastErr =
         LoopResult.thrown ("Gemini API server error " ++ toString status ++ ": " ++ body)
           (calls + 1))
    ∧ (∀ (apiKey gm mode language advice contextStr body : String),
       apiKey ≠ "" →
       oracle 0 (buildPromptServer mode language advice contextStr) =
         FetchOutcome.httpErr 503 body →
       handler "POST" apiKey gm mode language advice contextStr oracle =
         ⟨{ status := 200, text := some stubErrorText, provider := some "stub-error" }, 1⟩) := by
  constructor
  · intro prompt ver model rest calls lastErr status body ho h5
    exact tryCandidates_server_err oracle prompt ver model rest calls lastErr status body ho h5
  · intro apiKey gm mode language advice contextStr body hkey ho
    obtain ⟨rest, hrest⟩ := candidates_cons gm
    have hstep : tryCandidates oracle (buildPromptServer mode language advice contextStr)
        (candidates gm) 0 "" =
        LoopResult.thrown ("Gemini API server error " ++ toString 503 ++ ": " ++ body) 1 := by
      rw [hrest]
      exact tryCandidates_server_err oracle _ "v1beta" (preferredModel gm) rest 0 "" 503 body ho
        (by omega)
    exact handler_thrown oracle apiKey gm mode language advice contextStr _ 1 hkey hstep

/-- Witness for C4: a concrete 503-on-first-candidate run settles as the
`stub-error` response after exactly one provider call. -/
theorem C4_witness :
    handler "POST" "key" "" "advice" "en" "" "ctx"
        (fun _ _ => FetchOutcome.httpErr 503 "service unavailable") =
      ⟨{ status := 200, text := some stubErrorText, provider := some "stub-error" }, 1⟩ :=
  (C4_server_class_aborts_cascade (fun _ _ => FetchOutcome.httpErr 503 "service unavailable")).2
    "key" "" "advice" "en" "" "ctx" "service unavailable" (by decide) rfl

/-- Claim C5: a candidate failure with a non-server-class status records
the error text and continues with the next candidate in list order, and
when the iteration exhausts all candidates the handler returns (does not
throw) the deterministic non-empty `stub-fallback` result whose
`errorInfo` is the last recorded error text. -/
theorem C5_client_class_continues_then_stub_fallback
    (oracle : Nat → String → FetchOutcome) :
    (∀ (prompt ver model : String) (rest : List (String × String)) (calls : Nat)
       (lastErr : String) (status : Nat) (body : String),
       oracle calls prompt = FetchOutcome.httpErr status body → status < 500 →
       tryCandidates oracle prompt ((ver, model) :: rest) calls lastErr =
         tryCandidates oracle prompt rest (calls + 1) (errRecord ver model body))
    ∧ (∀ (prompt : String) (calls : Nat) (lastErr : String),
       tryCandidates oracle prompt [] calls lastErr = LoopResult.exhausted lastErr calls)
    ∧ (∀ (apiKey gm mode language advice contextStr lastErr : String) (c : Nat),
       apiKey ≠ "" →
       tryCandidates oracle (buildPromptServer mode language advice contextStr)
           (candidates gm) 0 "" = LoopResult.exhausted lastErr c →
       handler "POST" apiKey gm mode language advice contextStr oracle =
         ⟨{ status := 200
            text := some stubFallbackText
            provider := some "stub-fallback"
            errorInfo := some lastErr }, c⟩ ∧
       stubFallbackText ≠ "") := by
  refine ⟨?_, ?_, ?_⟩
  · intro prompt ver model rest calls lastErr status body ho hlt
    exact tryCandidates_client_err oracle prompt ver model rest calls lastErr status body ho hlt
  · intro prompt calls lastErr
    rfl
  · intro apiKey gm mode language advice contextStr lastErr c hkey htc
    exact ⟨handler_exhausted oracle apiKey gm mode language advice contextStr lastErr c hkey htc,
      by decide⟩

/-- Witness for C5: with every candidate answering 404, the run visits
all 12 candidates of the default configuration and returns the
`stub-fallback` response carrying the last candidate's recorded error. -/
theorem C5_witness :
    handler "POST" "key" "" "advice" "en" "" "ctx"
        (fun _ _ => FetchOutcome.httpErr 404 "not found") =
      ⟨{ status := 200
         text := some stubFallbackText
         provider := some "stub-fallback"
         errorInfo := some "(v1/gemini-1.5-pro) not found" }, 12⟩ :=
  ((C5_client_class_continues_then_stub_fallback
      (fun _ _ => FetchOutcome.httpErr 404 "not found")).2.2
    "key" "" "advice" "en" "" "ctx" "(v1/gemini-1.5-pro) not found" 12
    (by decide) (by decide)).1

/-- Counterexample to claim C3 as stated: an HTTP success whose response
shape yields no extractable text is still an immediate success exit —
the handler returns the empty text with that candidate's provider tag
instead of continuing the cascade. -/
theorem C3_counterexample :
    handler "POST" "key" "" "advice" "en" "" "ctx" (fun _ _ => FetchOutcome.ok none) =
      ⟨{ status := 200, text := some "", provider := some "gemini:v1beta:gemini-1.5-flash" },
        1⟩ :=
  rfl

/-- Claim C3 (amended): an HTTP/transport success is always an immediate
success exit, regardless of whether extraction yields text — absent text
extracts as the empty string — and HTTP success is the only success exit
of the cascade, with provider naming the exact version and model; the
handler forwards the success exit verbatim as the 200 response. -/
theorem C3_http_success_only_success_exit
    (oracle : Nat → String → FetchOutcome) (prompt : String) :
    (∀ (ver model : String) (rest : List (String × String)) (calls : Nat) (lastErr : String)
       (ex : Option String),
       oracle calls prompt = FetchOutcome.ok ex →
       tryCandidates oracle prompt ((ver, model) :: rest) calls lastErr =
         LoopResult.success (jsOr ex "") ("gemini:" ++ ver ++ ":" ++ model) (calls + 1))
    ∧ (∀ (cands : List (String × String)) (calls : Nat) (lastErr t p : String) (c : Nat),
       tryCandidates oracle prompt cands calls lastErr = LoopResult.success t p c →
       ∃ ver model ex, (ver, model) ∈ cands ∧ oracle (c - 1) prompt = FetchOutcome.ok ex ∧
         t = jsOr ex "" ∧ p = "gemini:" ++ ver ++ ":" ++ model)
    ∧ (∀ (apiKey gm mode language advice contextStr t p : String) (c : Nat),
       apiKey ≠ "" →
       tryCandidates oracle (buildPromptServer mode language advice contextStr)
           (candidates gm) 0 "" = LoopResult.success t p c →
       handler "POST" apiKey gm mode language advice contextStr oracle =
         ⟨{ status := 200, text := some t, provider := some p }, c⟩) := by
  refine ⟨?_, tryCandidates_success_src oracle prompt, ?_⟩
  · intro ver model rest calls lastErr ex ho
    exact tryCandidates_ok oracle prompt ver model rest calls lastErr ex ho
  · intro apiKey gm mode language advice contextStr t p c hkey htc
    exact handler_success oracle apiKey gm mode language advice contextStr t p c hkey htc

/-- Witness for C3 (amended): a concrete single-candidate cascade whose
call succeeds exits immediately with that candidate's tag. -/
theorem C3_witness :
    tryCandidates (fun _ _ => FetchOutcome.ok (some "advisory text")) "p"
        [("v1beta", "gemini-1.5-flash")] 0 "" =
      LoopResult.success "advisory text" "gemini:v1beta:gemini-1.5-flash" 1 :=
  (C3_http_success_only_success_exit
      (fun _ _ => FetchOutcome.ok (some "advisory text")) "p").1
    "v1beta" "gemini-1.5-flash" [] 0 "" (some "advisory text") rfl

/-- Counterexample to claim C2 as stated: a completed on-device advisory
action whose local session yields the empty output surfaces an empty
advisory text to the caller. -/
theorem C2_counterexample :
    (generate true (LocalProbe.answer "readily")
        (SessionOpen.opens (PromptResult.yields (some "")))
        (RemoteResult.responds true none none none) ⟨"", "", none, false⟩).state.advice = "" ∧
    (generate true (LocalProbe.answer "readily")
        (SessionOpen.opens (PromptResult.yields (some "")))
        (RemoteResult.responds true none none none) ⟨"", "", none, false⟩).state.provider =
      onDeviceTag :=
  ⟨rfl, rfl⟩

/-- Claim C2 (amended): every stub exit of the handler (`stub`,
`stub-fallback`, `stub-error`) carries a non-empty text, and the
client's final error fallback text is non-empty; the success exits
(on-device output, remote candidate extraction) pass the produced text
through verbatim and may therefore surface empty text. -/
theorem C2_text_nonempty_on_stub_and_error_paths
    (method apiKey gm mode language advice contextStr : String)
    (oracle : Nat → String → FetchOutcome) :
    ((handler method apiKey gm mode language advice contextStr oracle).response.provider =
       some "stub" ∨
     (handler method apiKey gm mode language advice contextStr oracle).response.provider =
       some "stub-fallback" ∨
     (handler method apiKey gm mode language advice contextStr oracle).response.provider =
       some "stub-error" →
     ∃ t, (handler method apiKey gm mode language advice contextStr oracle).response.text =
       some t ∧ t ≠ "")
    ∧ (∀ (probe : LocalProbe) (sess : SessionOpen) (st : AdvisorState),
       (generate false probe sess RemoteResult.fetchThrows st).state.advice =
         clientErrorText ∧
       clientErrorText ≠ "") := by
  constructor
  · intro hp
    unfold handler at hp ⊢
    by_cases hm : method ≠ "POST"
    · rw [if_pos hm] at hp
      simp at hp
    · rw [if_neg hm] at hp ⊢
      by_cases hk : apiKey = ""
      · rw [if_pos hk]
        exact ⟨stubText, rfl, by decide⟩
      · rw [if_neg hk] at hp ⊢
        cases htc : tryCandidates oracle (buildPromptServer mode language advice contextStr)
            (candidates gm) 0 "" with
        | success t p c =>
          rw [htc] at hp
          obtain ⟨ver, model, ex, _, _, _, hp2⟩ :=
            tryCandidates_success_src oracle _ _ _ _ _ _ _ htc
          rcases hp with h | h | h
          · have h2 : p = "stub" := Option.some.inj h
            exact absurd (hp2.symm.trans h2) (gemini_tag_ne _ _ _ (by decide))
          · have h2 : p = "stub-fallback" := Option.some.inj h
            exact absurd (hp2.symm.trans h2) (gemini_tag_ne _ _ _ (by decide))
          · have h2 : p = "stub-error" := Option.some.inj h
            exact absurd (hp2.symm.trans h2) (gemini_tag_ne _ _ _ (by decide))
        | exhausted lastErr c =>
          exact ⟨stubFallbackText, rfl, by decide⟩
        | thrown msg c =>
          exact ⟨stubErrorText, rfl, by decide⟩
  · intro probe sess st
    exact ⟨rfl, by decide⟩

/-- Witness for C2 (amended): the no-credential stub response carries
non-empty text, and a client action whose boundary fetch throws settles
with the non-empty fixed failure text. -/
theorem C2_witness :
    (∃ t, (handler "POST" "" "" "advice" "en" "" "ctx"
        (fun _ _ => FetchOutcome.ok none)).response.text = some t ∧ t ≠ "") ∧
    ((generate false LocalProbe.probeThrow SessionOpen.openThrows RemoteResult.fetchThrows
        ⟨"", "", none, false⟩).state.advice = clientErrorText ∧ clientErrorText ≠ "") :=
  ⟨(C2_text_nonempty_on_stub_and_error_paths "POST" "" "" "advice" "en" "" "ctx"
      (fun _ _ => FetchOutcome.ok none)).1 (Or.inl rfl),
   (C2_text_nonempty_on_stub_and_error_paths "POST" "" "" "advice" "en" "" "ctx"
      (fun _ _ => FetchOutcome.ok none)).2 LocalProbe.probeThrow SessionOpen.openThrows
     ⟨"", "", none, false⟩⟩

/-- Counterexample to claim C1 as stated: with capability `readily` and
a local session whose `prompt()` throws, the action does not settle via
the remote path — zero remote delegation calls are issued and the
result is the fixed failure text with provider `error`. -/
theorem C1_counterexample :
    (generate true (LocalProbe.answer "readily") (SessionOpen.opens PromptResult.promptThrows)
        (RemoteResult.responds true (some "remote advisory")
          (some "gemini:v1beta:gemini-1.5-flash") none)
        ⟨"", "", none, false⟩).remoteCalls = 0 ∧
    (generate true (LocalProbe.answer "readily") (SessionOpen.opens PromptResult.promptThrows)
        (RemoteResult.responds true (some "remote advisory")
          (some "gemini:v1beta:gemini-1.5-flash") none)
        ⟨"", "", none, false⟩).state.provider = "error" :=
  ⟨rfl, rfl⟩

/-- Claim C1 (amended): when the readiness query answers `readily` or
`after-download` and the on-device path throws — on session open or on
`prompt()` — the exception reaches the single outer catch: the action
settles with the fixed failure text and provider `error`, issuing zero
remote boundary calls rather than falling through to the remote path;
an on-device output (even empty or undefined) likewise settles
on-device with zero remote calls. -/
theorem C1_on_device_failure_no_remote_fallback
    (can : String) (sess : SessionOpen) (remote : RemoteResult) (st : AdvisorState)
    (hcan : can = "readily" ∨ can = "after-download") :
    ((sess = SessionOpen.openThrows ∨ sess = SessionOpen.opens PromptResult.promptThrows) →
      generate true (LocalProbe.answer can) sess remote st = ⟨errorSettle st, 1, 0⟩)
    ∧ (∀ out,
      generate true (LocalProbe.answer can) (SessionOpen.opens (PromptResult.yields out))
          remote st =
        ⟨{ st with advice := jsOr out "", provider := onDeviceTag, loading := false }, 1, 0⟩) := by
  rcases hcan with rfl | rfl <;>
    exact ⟨by rintro (rfl | rfl) <;> rfl, fun out => rfl⟩

/-- Witness for C1 (amended): a concrete `readily` action whose
`prompt()` throws settles as the error fallback with zero remote calls,
even though the remote boundary would have answered. -/
theorem C1_witness :
    generate true (LocalProbe.answer "readily") (SessionOpen.opens PromptResult.promptThrows)
        (RemoteResult.responds true (some "remote text") (some "gemini:v1:m") none)
        ⟨"", "", none, false⟩ =
      ⟨errorSettle ⟨"", "", none, false⟩, 1, 0⟩ :=
  (C1_on_device_failure_no_remote_fallback "readily" (SessionOpen.opens PromptResult.promptThrows)
      (RemoteResult.responds true (some "remote text") (some "gemini:v1:m") none)
      ⟨"", "", none, false⟩ (Or.inl rfl)).1 (Or.inr rfl)

/-- Counterexample to claim C8 as stated: a single `generate` action
(with the Prompt API supported) issues its own readiness query to the
local inference facility — `canCreateTextSession` is re-invoked per
action, not only at orchestrator initialization. -/
theorem C8_counterexample :
    (generate true (LocalProbe.answer "no") (SessionOpen.opens (PromptResult.yields none))
        (RemoteResult.responds true (some "server advisory") (some "stub") none)
        ⟨"", "", some "no", false⟩).probeCalls = 1 :=
  rfl

/-- Claim C8 (amended): the mount-time probe `checkAI` issues at most one
readiness query and `generate` never updates the stored
`CapabilityStatus` — the probed status is session-durable — but every
`generate` action with Prompt API support issues its own fresh
`canCreateTextSession` readiness query instead of reusing the stored
status. -/
theorem C8_status_durable_but_actions_reprobe :
    (∀ (windowDefined hasWindowAI : Bool) (probe : LocalProbe),
       (checkAITrace windowDefined hasWindowAI probe).2 ≤ 1)
    ∧ (∀ (supports : Bool) (probe : LocalProbe) (sess : SessionOpen) (remote : RemoteResult)
        (st : AdvisorState),
       (generate supports probe sess remote st).state.aiStatus = st.aiStatus ∧
       (generate supports probe sess remote st).probeCalls = if supports then 1 else 0) := by
  constructor
  · intro windowDefined hasWindowAI probe
    cases windowDefined <;> cases hasWindowAI <;> cases probe <;> simp [checkAITrace]
  · intro supports probe sess remote st
    have hremote : ∀ (pc : Nat), (remotePhase remote st pc).state.aiStatus = st.aiStatus ∧
        (remotePhase remote st pc).probeCalls = pc := by
      intro pc
      cases remote with
      | fetchThrows => exact ⟨rfl, rfl⟩
      | responds ok jsonText jsonProvider jsonError =>
        cases ok with
        | false => exact ⟨rfl, rfl⟩
        | true => exact ⟨rfl, rfl⟩
    cases supports with
    | false => exact hremote 0
    | true =>
      cases probe with
      | probeThrow => exact ⟨rfl, rfl⟩
      | answer can =>
        by_cases hcan : can = "readily" ∨ can = "after-download"
        · rcases hcan with rfl | rfl
          all_goals
            cases sess with
            | openThrows => exact ⟨rfl, rfl⟩
            | opens pr =>
              cases pr with
              | promptThrows => exact ⟨rfl, rfl⟩
              | yields out => exact ⟨rfl, rfl⟩
        · have hg : generate true (LocalProbe.answer can) sess remote st =
              remotePhase remote st 1 := by
            simp [generate, hcan]
          rw [hg]
          exact hremote 1

set_option maxRecDepth 4000 in
/-- Claim C9: both prompt builders are pure and deterministic — two
calls with identical arguments yield identical strings — and for every
mode the built prompt is a non-empty string embedding the serialized
context (advice) or the prior text (translate/rewrite) as a suffix. -/
theorem C9_prompt_builders_deterministic_nonempty_embedding
    (mode language advice contextStr : String) :
    (buildPromptServer mode language advice contextStr =
       buildPromptServer mode language advice contextStr ∧
     buildPromptClient mode language advice contextStr =
       buildPromptClient mode language advice contextStr)
    ∧ (buildPromptServer "advice" language advice contextStr ≠ "" ∧
       ∃ pre, buildPromptServer "advice" language advice contextStr = pre ++ contextStr)
    ∧ (buildPromptServer "translate" language advice contextStr ≠ "" ∧
       ∃ pre, buildPromptServer "translate" language advice contextStr = pre ++ advice)
    ∧ (buildPromptServer "rewrite" language advice contextStr ≠ "" ∧
       ∃ pre, buildPromptServer "rewrite" language advice contextStr = pre ++ advice)
    ∧ (buildPromptClient "advice" language advice contextStr ≠ "" ∧
       ∃ pre, buildPromptClient "advice" language advice contextStr = pre ++ contextStr)
    ∧ (buildPromptClient "translate" language advice contextStr ≠ "" ∧
       ∃ pre, buildPromptClient "translate" language advice contextStr = pre ++ advice)
    ∧ (buildPromptClient "rewrite" language advice contextStr ≠ "" ∧
       ∃ pre, buildPromptClient "rewrite" language advice contextStr = pre ++ advice) := by
  refine ⟨⟨rfl, rfl⟩, ⟨?_, ⟨adviceSystemText, rfl⟩⟩, ⟨?_, ⟨_, rfl⟩⟩, ⟨?_, ⟨_, rfl⟩⟩,
    ⟨?_, ⟨_, rfl⟩⟩, ⟨?_, ⟨_, rfl⟩⟩, ⟨?_, ⟨_, rfl⟩⟩⟩
  · exact prefix_append_ne_empty adviceSystemText contextStr (by decide)
  · exact prefix_append_ne_empty _ advice
      (append3_len_pos "Translate the following advisory to " language
        " using clear, friendly travel English localized to the target language.\n\n"
        (by decide))
  · exact prefix_append_ne_empty
      "Rewrite the following advisory to be more concise while preserving all key recommendations. Limit to 120 words.\n\n"
      advice (by decide)
  · exact prefix_append_ne_empty
      "Create a traveler advisory for this flight context. Output plain text.\n\nJSON Context:\n"
      contextStr (by decide)
  · exact prefix_append_ne_empty _ advice
      (append3_len_pos "Translate the following advisory to " language
        " using clear, friendly travel English localized to the target language:\n\n"
        (by decide))
  · exact prefix_append_ne_empty
      "Rewrite the following advisory to be more concise while preserving all key recommendations. Limit to 120 words.\n\n"
      advice (by decide)

/-- Claim C10: every POST request gets a 200 response whose JSON body
carries a provider tag; every exception escaping the cascade is caught
by the final safety net, which answers 200 with the fixed non-empty
`stub-error` text; the only non-200 response is the 405 for a non-POST
method. -/
theorem C10_post_always_200_with_provider
    (method apiKey gm mode language advice contextStr : String)
    (oracle : Nat → String → FetchOutcome) :
    (method ≠ "POST" →
      handler method apiKey gm mode language advice contextStr oracle =
        ⟨{ status := 405, error := some "Method not allowed" }, 0⟩)
    ∧ (method = "POST" →
      (handler method apiKey gm mode language advice contextStr oracle).response.status = 200 ∧
      ∃ p, (handler method apiKey gm mode language advice contextStr oracle).response.provider =
        some p)
    ∧ (∀ (msg : String) (n : Nat), method = "POST" → apiKey ≠ "" →
      tryCandidates oracle (buildPromptServer mode language advice contextStr)
          (candidates gm) 0 "" = LoopResult.thrown msg n →
      handler method apiKey gm mode language advice contextStr oracle =
        ⟨{ status := 200, text := some stubErrorText, provider := some "stub-error" }, n⟩ ∧
      stubErrorText ≠ "") := by
  refine ⟨?_, ?_, ?_⟩
  · intro hm
    unfold handler
    rw [if_pos hm]
  · intro hm
    subst hm
    unfold handler
    rw [if_neg (by simp)]
    by_cases hk : apiKey = ""
    · rw [if_pos hk]
      exact ⟨rfl, "stub", rfl⟩
    · rw [if_neg hk]
      cases htc : tryCandidates oracle (buildPromptServer mode language advice contextStr)
          (candidates gm) 0 "" with
      | success t p c => exact ⟨rfl, p, rfl⟩
      | exhausted lastErr c => exact ⟨rfl, "stub-fallback", rfl⟩
      | thrown msg c => exact ⟨rfl, "stub-error", rfl⟩
  · intro msg n hm hk htc
    subst hm
    exact ⟨handler_thrown oracle apiKey gm mode language advice contextStr msg n hk htc,
      by decide⟩

/-- Witness for C10: a concrete run whose first provider call throws is
converted by the safety net into the 200 `stub-error` response. -/
theorem C10_witness :
    handler "POST" "key" "" "advice" "en" "" "ctx" (fun _ _ => FetchOutcome.throwErr "boom") =
      ⟨{ status := 200, text := some stubErrorText, provider := some "stub-error" }, 1⟩ ∧
    stubErrorText ≠ "" :=
  (C10_post_always_200_with_provider "POST" "key" "" "advice" "en" "" "ctx"
      (fun _ _ => FetchOutcome.throwErr "boom")).2.2 "boom" 1 rfl (by decide) rfl

end AdvisoryPipeline
